import Mathlib

/-!
Verification development for the voicenest-serverless Lambda handler
(`src/lambdas/voicenest_serverless/handler.py`).

The Python handler is shallowly embedded below.  Raw byte buffers are
`List Nat` (each entry a byte value), strings are Lean `String`s, and every
external collaborator (S3, Transcribe, Comprehend, Translate, Cohere, Polly,
the multipart parser of the `email` library) is a parameter of an `Env`
record: a call that can raise in Python is an `Option`-valued oracle, with
`none` standing for the raised exception.  The handler additionally returns
the list of externally visible actions it performed (temp-file creation and
deletion, the S3 upload, the transcription-job submission, the synthesis
call), so that frame properties about side effects can be stated.
-/

set_option maxHeartbeats 1000000

/-! String helpers mirroring the Python string operations used by the code. -/

/-- Python `str.lower()` (the code only ever lowercases ASCII header values). -/
def lowerStr (s : String) : String := String.mk (s.data.map Char.toLower)

/-- Bool test that the first list is a prefix of the second
(Python `str.startswith`). -/
def prefixOfB : List Char → List Char → Bool
  | [], _ => true
  | _ :: _, [] => false
  | p :: ps, c :: cs => p == c && prefixOfB ps cs

/-- Bool test that `pat` occurs as a contiguous substring of the second list
(Python `pat in s`). -/
def containsSub (pat : List Char) : List Char → Bool
  | [] => prefixOfB pat []
  | c :: cs => prefixOfB pat (c :: cs) || containsSub pat cs

/-- Python `pat in s` on strings. -/
def strContains (s pat : String) : Bool := containsSub pat.data s.data

/-- Python `s.startswith(pre)`. -/
def strStartsWith (s pre : String) : Bool := prefixOfB pre.data s.data

/-- Python `not s.strip()`: the string is empty or all whitespace. -/
def isBlank (s : String) : Bool := s.data.all (fun c => c.isWhitespace)

/-- UTF-8 encoding of one character (Python `str.encode()` on one char). -/
def utf8EncodeChar (c : Char) : List Nat :=
  let n := c.toNat
  if n < 128 then [n]
  else if n < 2048 then [192 + n / 64, 128 + n % 64]
  else if n < 65536 then [224 + n / 4096, 128 + n / 64 % 64, 128 + n % 64]
  else [240 + n / 262144, 128 + n / 4096 % 64, 128 + n / 64 % 64, 128 + n % 64]

/-- Python `body.encode()`: UTF-8 bytes of a string. -/
def utf8Bytes (s : String) : List Nat := (s.data.map utf8EncodeChar).flatten

/-! Base64, as used by `base64.b64decode` on the request body and
`base64.b64encode` on the Polly audio stream. -/

/-- The base64 alphabet. -/
def base64Chars : List Char :=
  "ABCDEFGHIJKLMNOPQRSTUVWXYZabcdefghijklmnopqrstuvwxyz0123456789+/".data

/-- Character for a 6-bit value. -/
def sextetChar (v : Nat) : Char := base64Chars.getD v 'A'

/-- 6-bit value of an alphabet character (`none` for a non-alphabet char). -/
def charSextet (c : Char) : Option Nat := base64Chars.findIdx? (fun d => d == c)

/-- Base64 encoding of a byte list, 3 bytes to 4 chars with `=` padding. -/
def base64EncodeBytes : List Nat → List Char
  | b1 :: b2 :: b3 :: rest =>
      sextetChar (b1 / 4) :: sextetChar (b1 % 4 * 16 + b2 / 16) ::
      sextetChar (b2 % 16 * 4 + b3 / 64) :: sextetChar (b3 % 64) ::
      base64EncodeBytes rest
  | [b1, b2] => [sextetChar (b1 / 4), sextetChar (b1 % 4 * 16 + b2 / 16),
      sextetChar (b2 % 16 * 4), '=']
  | [b1] => [sextetChar (b1 / 4), sextetChar (b1 % 4 * 16), '=', '=']
  | [] => []

/-- Base64 decoding of a char list; `none` on malformed input. -/
def base64DecodeChars : List Char → Option (List Nat)
  | c1 :: c2 :: c3 :: c4 :: rest =>
    if c3 = '=' ∧ c4 = '=' ∧ rest = [] then
      match charSextet c1, charSextet c2 with
      | some v1, some v2 => some [v1 * 4 + v2 / 16]
      | _, _ => none
    else if c4 = '=' ∧ rest = [] then
      match charSextet c1, charSextet c2, charSextet c3 with
      | some v1, some v2, some v3 =>
          some [v1 * 4 + v2 / 16, v2 % 16 * 16 + v3 / 4]
      | _, _, _ => none
    else
      match charSextet c1, charSextet c2, charSextet c3, charSextet c4,
          base64DecodeChars rest with
      | some v1, some v2, some v3, some v4, some bs =>
          some ((v1 * 4 + v2 / 16) :: (v2 % 16 * 16 + v3 / 4) ::
            (v3 % 4 * 64 + v4) :: bs)
      | _, _, _, _, _ => none
  | [] => some []
  | _ => none

/-- Python `base64.b64encode(...).decode()`. -/
def base64Encode (bs : List Nat) : String := String.mk (base64EncodeBytes bs)

/-- Python `base64.b64decode(body)`; `none` models the raised `binascii.Error`. -/
def base64Decode (s : String) : Option (List Nat) := base64DecodeChars s.data

/-! The read-only lookup tables of the handler module, in source order. -/

/-- The `SUPPORTED_POLLY_LANGS` dict of handler.py, as an association list in the
order of the source; Python dicts iterate in insertion order. -/
def SUPPORTED_POLLY_LANGS : List (String × String) :=
  [("arb", "Zeina"), ("ar-AE", "Hala"), ("nl-BE", "Lisa"), ("ca-ES", "Arlet"),
   ("cs-CZ", "Jitka"), ("yue-CN", "Hiujin"), ("cmn-CN", "Zhiyu"), ("da-DK", "Sofie"),
   ("nl-NL", "Lotte"), ("en-AU", "Olivia"), ("en-GB", "Amy"), ("en-IN", "Kajal"),
   ("en-IE", "Niamh"), ("en-NZ", "Aria"), ("en-SG", "Jasmine"), ("en-ZA", "Ayanda"),
   ("en-US", "Joanna"), ("en-GB-WLS", "Geraint"), ("fi-FI", "Suvi"), ("fr-FR", "Lea"),
   ("fr-BE", "Isabelle"), ("fr-CA", "Gabrielle"), ("de-DE", "Vicki"), ("de-AT", "Hannah"),
   ("de-CH", "Sabrina"), ("hi-IN", "Kajal"), ("is-IS", "Dora"), ("it-IT", "Bianca"),
   ("ja-JP", "Mizuki"), ("ko-KR", "Seoyeon"), ("nb-NO", "Ida"), ("pl-PL", "Maja"),
   ("pt-BR", "Vitoria"), ("pt-PT", "Ines"), ("ro-RO", "Carmen"), ("ru-RU", "Tatyana"),
   ("es-ES", "Lucia"), ("es-MX", "Mia"), ("es-US", "Lupe"), ("sv-SE", "Elin"),
   ("tr-TR", "Burcu"), ("cy-GB", "Gwyneth")]

/-- The `NEURAL_SUPPORTED_VOICES` set of handler.py. -/
def NEURAL_SUPPORTED_VOICES : List String :=
  ["Hala", "Zayd", "Lisa", "Arlet", "Jitka", "Hiujin", "Zhiyu", "Sofie",
   "Laura", "Olivia", "Amy", "Emma", "Brian", "Arthur", "Kajal", "Niamh",
   "Aria", "Jasmine", "Ayanda", "Danielle", "Gregory", "Ivy", "Joanna",
   "Kendra", "Kimberly", "Salli", "Joey", "Justin", "Kevin", "Matthew",
   "Ruth", "Stephen", "Suvi", "Isabelle", "Gabrielle", "Liam", "Léa",
   "Rémi", "Vicki", "Daniel", "Hannah", "Sabrina", "Bianca", "Adriano",
   "Takumi", "Kazuha", "Tomoko", "Seoyeon", "Jihye", "Ida", "Ola", "Camila",
   "Vitoria", "Vitória", "Thiago", "Ines", "Inês", "Lucia", "Sergio",
   "Mia", "Andrés", "Lupe", "Pedro", "Elin", "Burcu", "Gwyneth"]

/-- Python `code.split("-")[0]`. -/
def langPrimary (code : String) : String := (code.splitOn "-").headD code

/-- The `SUPPORTED_TRANSLATE_LANGS` set of handler.py.  The source builds a `set`;
only membership in it is ever used, so the list may contain duplicates. -/
def SUPPORTED_TRANSLATE_LANGS : List String :=
  (SUPPORTED_POLLY_LANGS.map (fun p => langPrimary p.1)) ++ ["en"]

/-! Embedding of `find_best_voice_match` of handler.py. -/

/-- Embedding of `find_best_voice_match`: exact dict-key match, then first key with
`lang_code + "-"` as a prefix, then first key containing `lang_code` as a
substring, else no match.  The Python function returns `(None, None)` on no
match, embedded here as `none`. -/
def find_best_voice_match (lang_code : String) : Option (String × String) :=
  match SUPPORTED_POLLY_LANGS.find? (fun p => p.1 == lang_code) with
  | some p => some (p.2, lang_code)
  | none =>
    match SUPPORTED_POLLY_LANGS.find? (fun p => strStartsWith p.1 (lang_code ++ "-")) with
    | some p => some (p.2, p.1)
    | none =>
      match SUPPORTED_POLLY_LANGS.find? (fun p => strContains p.1 lang_code) with
      | some p => some (p.2, p.1)
      | none => none

/-! Embedding of `_detect_audio_format` of handler.py. -/

/-- Embedding of `_detect_audio_format`: magic-byte sniffing (only attempted on buffers of
at least 12 bytes), then case-insensitive content-type substring checks in the
order of the source (webm first, then wav/ogg/mp3, then webm again as written in the
source), defaulting to webm.  Byte values: `RIFF` = 82,73,70,70;
`WAVE` = 87,65,86,69; `OggS` = 79,103,103,83; `ID3` = 73,68,51; the MPEG sync
pair `\xff\xfb` = 255,251. -/
def _detect_audio_format (audio_bytes : List Nat) (content_type : String) :
    String × String :=
  if 12 ≤ audio_bytes.length ∧ audio_bytes.take 4 = [82, 73, 70, 70] ∧
      (audio_bytes.drop 8).take 4 = [87, 65, 86, 69] then (".wav", "wav")
  else if 12 ≤ audio_bytes.length ∧ audio_bytes.take 4 = [79, 103, 103, 83] then
    (".ogg", "ogg")
  else if 12 ≤ audio_bytes.length ∧ (audio_bytes.take 3 = [73, 68, 51] ∨
      audio_bytes.take 2 = [255, 251]) then (".mp3", "mp3")
  else if content_type ≠ "" ∧ strContains (lowerStr content_type) "webm" then
    (".webm", "webm")
  else if content_type ≠ "" ∧ strContains (lowerStr content_type) "wav" then
    (".wav", "wav")
  else if content_type ≠ "" ∧ strContains (lowerStr content_type) "ogg" then
    (".ogg", "ogg")
  else if content_type ≠ "" ∧ strContains (lowerStr content_type) "mp3" then
    (".mp3", "mp3")
  else if content_type ≠ "" ∧ strContains (lowerStr content_type) "webm" then
    (".webm", "webm")
  else (".webm", "webm")

/-! The transcription polling loop of `_get_transcribed_text`. -/

/-- Status of the transcription job as reported by one
`get_transcription_job` call. -/
inductive JobStatus
  | completed
  | failed
  | inProgress
deriving DecidableEq, Repr

/-- The `max_wait_time = 300` seconds of `_get_transcribed_text`. -/
def MAX_WAIT : Nat := 300

/-- Seconds slept between polls (`time.sleep(5)`). -/
def POLL_INTERVAL : Nat := 5

/-- The loop polls at elapsed times 0, 5, 10, …: each iteration first checks
`time.time() - start_time > 300` and then reads the job status, sleeping 5
seconds after an in-flight status.  With time idealised to exact 5-second
ticks, the budget check fails for the first time at elapsed = 305, i.e. after
the 61 polls at elapsed 0 … 300; `POLL_TICKS` is that iteration count. -/
def POLL_TICKS : Nat := MAX_WAIT / POLL_INTERVAL + 1

/-- One execution of the polling loop: `status e` is the job status the
engine reports when polled at elapsed time `e`; `ticks` counts the
iterations still inside the wait budget (see `POLL_TICKS`).  Returns the
terminal status observed, or `none` when the budget is exceeded while the
job is still in-flight (the Python loop returning `None` on timeout). -/
def pollLoop (status : Nat → JobStatus) : Nat → Nat → Option JobStatus
  | 0, _ => none
  | t + 1, elapsed =>
    match status elapsed with
    | JobStatus.inProgress => pollLoop status t (elapsed + POLL_INTERVAL)
    | JobStatus.completed => some JobStatus.completed
    | JobStatus.failed => some JobStatus.failed

/-- Embedding of `_get_transcribed_text`: poll to a terminal state; on `FAILED` or timeout
return `None`; on `COMPLETED` fetch the transcript document (`fetch` is the
oracle for the HTTP fetch plus JSON field extraction, `none` for any failure
there, which the surrounding `except` also turns into `None`). -/
def _get_transcribed_text (status : Nat → JobStatus) (fetch : Option String) :
    Option String :=
  match pollLoop status POLL_TICKS 0 with
  | none => none
  | some JobStatus.failed => none
  | some JobStatus.completed => fetch
  | some JobStatus.inProgress => none

/-! The handler itself. -/

/-- Externally visible side effects of one request, in the order performed. -/
inductive Effect
  | createTempFile
  | s3Upload
  | startTranscriptionJob (media_format : String)
  | pollJob
  | synthesize (text voice : String)
  | deleteTempFile
deriving DecidableEq, Repr

/-- An API-Gateway-style response value. -/
structure Response where
  statusCode : Nat
  headers : List (String × String)
  body : String
  isBase64Encoded : Bool
deriving DecidableEq, Repr

/-- Embedding of `_response(status, message)` of handler.py: a JSON error/status envelope
with the permissive CORS headers. -/
def _response (status : Nat) (message : String) : Response :=
  { statusCode := status,
    headers := [("Content-Type", "application/json"),
      ("Access-Control-Allow-Origin", "*"),
      ("Access-Control-Allow-Headers", "Content-Type"),
      ("Access-Control-Allow-Methods", "POST, OPTIONS")],
    body := "\x7b\x22message\x22: \x22" ++ message ++ "\x22\x7d",
    isBase64Encoded := false }

/-- The 200 response of handler.py lines 198-210. -/
def successResponse (spoken_lang audio_base64 : String) : Response :=
  { statusCode := 200,
    headers := [("Content-Type", "audio/mpeg"),
      ("Access-Control-Allow-Origin", "*"),
      ("Access-Control-Allow-Headers", "Content-Type"),
      ("Access-Control-Allow-Methods", "POST, OPTIONS"),
      ("Access-Control-Expose-Headers", "x-language"),
      ("x-language", spoken_lang)],
    body := audio_base64,
    isBase64Encoded := true }

/-- Lookup of a response header value by exact name. -/
def getRespHeader (r : Response) (k : String) : Option String :=
  (r.headers.find? (fun p => p.1 == k)).map (fun p => p.2)

/-- The external collaborators and configuration of one invocation.  Every
field models one boundary crossing of handler.py; `none` / `false` is the
Python exception or missing value at that boundary. -/
structure Env where
  /-- The `COHERE_API_KEY` environment variable. -/
  cohereApiKey : Option String
  /-- The `PROD_TRANSCRIBE_BUCKET` environment variable. -/
  transcribeBucket : Option String
  /-- Result of `parse_multipart_data` (which catches its own exceptions and
  returns `None` on any parse failure or missing "audio" field). -/
  parseMultipart : Option (List Nat)
  /-- Whether `s3.upload_file` succeeds. -/
  uploadOk : Bool
  /-- Whether `transcribe.start_transcription_job` succeeds. -/
  startJobOk : Bool
  /-- Job status reported by `get_transcription_job` at a given elapsed time. -/
  jobStatus : Nat → JobStatus
  /-- Transcript fetched from the result document on COMPLETED
  (`none` = HTTP or JSON-shape failure). -/
  fetchTranscript : Option String
  /-- Result of `comprehend.detect_dominant_language`: dominant language code
  (`none` = classifier failure). -/
  detectLanguage : Option String
  /-- Result of `translate.translate_text text source target` (`none` = failure). -/
  translateText : String → String → String → Option String
  /-- Result of `comprehend.detect_sentiment` (`none` = failure). -/
  detectSentiment : Option String
  /-- Cohere generation for (text, sentiment) (`none` = API failure). -/
  generateReply : String → String → Option String
  /-- Result of `polly.synthesize_speech text voice engine`: audio bytes
  (`none` = synthesis failure). -/
  synthesizeSpeech : String → String → String → Option (List Nat)

/-- An incoming API-Gateway event. -/
structure Event where
  body : Option String
  headers : List (String × String)
  isBase64Encoded : Bool

/-- Handler lines 70: first header whose name lowercases to "content-type". -/
def getContentType (headers : List (String × String)) : String :=
  match headers.find? (fun p => lowerStr p.1 == "content-type") with
  | some p => p.2
  | none => ""

/-- The canned fallback reply of `_cohere_generate_reply`. -/
def CANNED_REPLY : String :=
  "I understand you\x27re sharing something important with me. Thank you for trusting me with your thoughts."

/-- Embedding of `_cohere_generate_reply`: the oracle result, or the canned reply when the
API call fails. -/
def cohereGenerateReply (oracle : String → String → Option String)
    (text sentiment : String) : String :=
  (oracle text sentiment).getD CANNED_REPLY

/-- Handler lines 79-87: obtain the raw audio bytes from the body.
`Except.error ()` is the exception path (caught at line 85, yielding the 400
"Invalid audio data format"); `Except.ok none` is `parse_multipart_data`
returning `None`. -/
def decodeAudioBytes (env : Env) (event : Event) (body : String)
    (content_type : String) : Except Unit (Option (List Nat)) :=
  if strContains content_type "multipart/form-data" then
    Except.ok env.parseMultipart
  else if event.isBase64Encoded then
    match base64Decode body with
    | none => Except.error ()
    | some bs => Except.ok (some bs)
  else Except.ok (some (utf8Bytes body))

/-- Embedding of `_upload_and_transcribe` (effects only; the S3 URI is abstracted to `()`):
upload, then submit the job; any failure is caught and yields `None`. -/
def uploadAndTranscribe (uploadOk startJobOk : Bool) (media_format : String) :
    Option Unit × List Effect :=
  if uploadOk then
    (if startJobOk then
      (some (), [Effect.s3Upload, Effect.startTranscriptionJob media_format])
    else (none, [Effect.s3Upload, Effect.startTranscriptionJob media_format]))
  else (none, [Effect.s3Upload])

/-- Handler lines 111-139: language detection, forward translation and
sentiment, each `try/except`-defaulted.  Returns
(lang_code, translated_text, sentiment). -/
def classifierPhase (detectLanguage : Option String)
    (translateText : String → String → String → Option String)
    (detectSentiment : Option String) (transcript_text : String) :
    String × String × String :=
  let lang_code := detectLanguage.getD "en"
  let translated_text :=
    if lang_code ≠ "en" ∧ lang_code ∈ SUPPORTED_TRANSLATE_LANGS then
      (translateText transcript_text lang_code "en").getD transcript_text
    else transcript_text
  let sentiment := detectSentiment.getD "NEUTRAL"
  (lang_code, translated_text, sentiment)

/-- Handler lines 144-180: voice matching and reply-language resolution.
Returns (voice_id, spoken_lang_code, final_reply). -/
def voicePhase (translateText : String → String → String → Option String)
    (reply lang_code : String) : String × String × String :=
  match find_best_voice_match lang_code with
  | some (voice_id, spoken_lang_code) =>
    (voice_id, spoken_lang_code,
     if spoken_lang_code ≠ "en" then
       (translateText reply "en" spoken_lang_code).getD reply
     else reply)
  | none =>
    ("Joanna", "en",
     if lang_code ≠ "en" then
       (translateText reply lang_code "en").getD reply
     else reply)

/-- Handler line 188: neural engine for voices in `NEURAL_SUPPORTED_VOICES`. -/
def pollyEngine (voice_id : String) : String :=
  if voice_id ∈ NEURAL_SUPPORTED_VOICES then "neural" else "standard"

/-- Handler lines 111-180 as one function of the environment and transcript:
the classifier phase feeding reply generation feeding the voice phase.
Returns (voice_id, spoken_lang_code, final_reply). -/
def pipelineVoice (env : Env) (transcript_text : String) : String × String × String :=
  let c := classifierPhase env.detectLanguage env.translateText
    env.detectSentiment transcript_text
  voicePhase env.translateText (cohereGenerateReply env.generateReply c.2.1 c.2.2) c.1

/-- Handler lines 111-210 (after a non-blank transcript was obtained):
classifiers, reply generation, voice resolution and synthesis.  `trP` is the
action trace accumulated so far. -/
def finishPhase (env : Env) (transcript_text : String) (trP : List Effect) :
    Response × Bool × List Effect :=
  let vp := pipelineVoice env transcript_text
  match env.synthesizeSpeech vp.2.2 vp.1 (pollyEngine vp.1) with
  | none => (_response 500 "Audio response generation failed", true,
      trP ++ [Effect.synthesize vp.2.2 vp.1])
  | some audio_stream => (successResponse vp.2.1 (base64Encode audio_stream), true,
      trP ++ [Effect.synthesize vp.2.2 vp.1])

/-- Handler lines 89-210, from the decoded audio bytes on.  The Bool is
whether the temporary audio file was created (drives the `finally` cleanup). -/
def afterDecode (env : Env) (content_type : String) (audio_bytes : List Nat) :
    Response × Bool × List Effect :=
  if audio_bytes = [] ∨ audio_bytes.length < 100 then
    (_response 400 "Audio data appears to be invalid or too small", false, [])
  else
    let fmt := _detect_audio_format audio_bytes content_type
    let up := uploadAndTranscribe env.uploadOk env.startJobOk fmt.2
    let tr1 := Effect.createTempFile :: up.2
    match up.1 with
    | none => (_response 500 "Transcription failed", true, tr1)
    | some _ =>
      let trP := tr1 ++ [Effect.pollJob]
      match _get_transcribed_text env.jobStatus env.fetchTranscript with
      | none => (_response 400 "No speech detected in audio", true, trP)
      | some transcript_text =>
        if isBlank transcript_text then
          (_response 400 "No speech detected in audio", true, trP)
        else finishPhase env transcript_text trP

/-- Body of the `try` block of the handler (lines 56-210). -/
def handlerInner (env : Env) (event : Event) : Response × Bool × List Effect :=
  if env.cohereApiKey.isNone then
    (_response 500 "Missing API configuration", false, [])
  else if env.transcribeBucket.isNone then
    (_response 500 "Missing bucket configuration", false, [])
  else
    match event.body with
    | none => (_response 400 "Missing audio data", false, [])
    | some body =>
      if body = "" then (_response 400 "Missing audio data", false, [])
      else
        match decodeAudioBytes env event body (getContentType event.headers) with
        | Except.error _ => (_response 400 "Invalid audio data format", false, [])
        | Except.ok none =>
          (_response 400 "Audio data appears to be invalid or too small", false, [])
        | Except.ok (some audio_bytes) =>
          afterDecode env (getContentType event.headers) audio_bytes

/-- Embedding of `handler`: the `try` body followed by the `finally` block, which removes
the temporary audio file whenever it was created, on every exit path. -/
def handler (env : Env) (event : Event) : Response × List Effect :=
  match handlerInner env event with
  | (resp, tmpCreated, tr) =>
    (resp, tr ++ if tmpCreated then [Effect.deleteTempFile] else [])

/-! Concrete instances used by the closed theorems below. -/

/-- A 100-byte ASCII body whose bytes carry the RIFF/WAVE signature. -/
def wavBody : String := String.mk ("RIFF0000WAVE".data ++ List.replicate 88 'a')

/-- A raw (non-base64, non-multipart) request carrying `wavBody`. -/
def eventWav : Event :=
  { body := some wavBody,
    headers := [("Content-Type", "audio/wav")],
    isBase64Encoded := false }

/-- An environment in which every external stage succeeds and the transcript
is detected as English. -/
def envBase : Env :=
  { cohereApiKey := some "key",
    transcribeBucket := some "bucket",
    parseMultipart := none,
    uploadOk := true,
    startJobOk := true,
    jobStatus := fun _ => JobStatus.completed,
    fetchTranscript := some "Hello there",
    detectLanguage := some "en",
    translateText := fun t _ _ => some t,
    detectSentiment := some "POSITIVE",
    generateReply := fun _ _ => some "I am glad you told me.",
    synthesizeSpeech := fun _ _ _ => some [1, 2, 3, 250] }

/-- The spec-side EXACT tier: the code is a key of the voice table. -/
def exactTier (c : String) : Prop := ∃ p ∈ SUPPORTED_POLLY_LANGS, p.1 = c

/-- The spec-side PREFIX tier: the code followed by a hyphen is a prefix of
some table key. -/
def prefixTier (c : String) : Prop :=
  ∃ p ∈ SUPPORTED_POLLY_LANGS, strStartsWith p.1 (c ++ "-") = true

/-- The spec-side CONTAINMENT tier: the code occurs somewhere inside some
table key. -/
def containTier (c : String) : Prop :=
  ∃ p ∈ SUPPORTED_POLLY_LANGS, strContains p.1 c = true

/-- None of the four magic-byte signatures is present. -/
def noMagic (bs : List Nat) : Prop :=
  ¬ (bs.take 4 = [82, 73, 70, 70] ∧ (bs.drop 8).take 4 = [87, 65, 86, 69]) ∧
  bs.take 4 ≠ [79, 103, 103, 83] ∧ bs.take 3 ≠ [73, 68, 51] ∧
  bs.take 2 ≠ [255, 251]

/-- Variant of `envBase` with a detected language matching no voice at any tier. -/
def envNoVoice : Env := { envBase with detectLanguage := some "xx" }

/-- Variant of `envBase` with all three degradable classifiers failing. -/
def envClassifiersDown : Env :=
  { envBase with detectLanguage := none,
                 translateText := fun _ _ _ => none,
                 detectSentiment := none }

/-- Variant of `envBase` with the transcription job reported FAILED at the first poll. -/
def envJobFailed : Env := { envBase with jobStatus := fun _ => JobStatus.failed }

/-- Variant of `envBase` with the transcription job in-flight at every poll, so the
wait budget is exceeded. -/
def envJobStuck : Env :=
  { envBase with jobStatus := fun _ => JobStatus.inProgress }

/-- A raw request whose decoded body is 4 bytes, far below the 100-byte
minimum. -/
def shortEvent : Event :=
  { body := some "tiny", headers := [], isBase64Encoded := false }

/-! Lemmas about the polling loop. -/

theorem pollLoop_succ (status : Nat → JobStatus) (t e : Nat) :
    pollLoop status (t + 1) e =
      match status e with
      | JobStatus.inProgress => pollLoop status t (e + POLL_INTERVAL)
      | JobStatus.completed => some JobStatus.completed
      | JobStatus.failed => some JobStatus.failed := rfl

/-- Running the loop over `k` in-flight polls advances it by `k` ticks. -/
theorem pollLoop_skip (status : Nat → JobStatus) :
    ∀ (k ticks e : Nat),
      (∀ i, i < k → status (e + 5 * i) = JobStatus.inProgress) → k ≤ ticks →
      pollLoop status ticks e = pollLoop status (ticks - k) (e + 5 * k) := by
  intro k
  induction k with
  | zero => intro ticks e _ _; simp
  | succ k ih =>
    intro ticks e hprog hle
    cases ticks with
    | zero => omega
    | succ t =>
      have h0 : status e = JobStatus.inProgress := by
        have := hprog 0 (Nat.succ_pos k)
        simpa using this
      rw [pollLoop_succ, h0]
      have hstep := ih t (e + 5) (fun i hi => by
        have := hprog (i + 1) (by omega)
        have harith : e + 5 * (i + 1) = e + 5 + 5 * i := by ring
        rwa [harith] at this) (by omega)
      have e1 : t + 1 - (k + 1) = t - k := by omega
      have e2 : e + 5 * (k + 1) = e + 5 + 5 * k := by ring
      rw [e1, e2, ← hstep]
      simp [POLL_INTERVAL]

/-- If the job is in-flight at every poll the loop can reach, it times out. -/
theorem pollLoop_timeout (status : Nat → JobStatus) :
    ∀ (ticks i : Nat),
      (∀ j, j < i + ticks → status (5 * j) = JobStatus.inProgress) →
      pollLoop status ticks (5 * i) = none := by
  intro ticks
  induction ticks with
  | zero => intro i _; rfl
  | succ t ih =>
    intro i h
    have h0 : status (5 * i) = JobStatus.inProgress := h i (by omega)
    rw [pollLoop_succ, h0]
    have harith : 5 * i + POLL_INTERVAL = 5 * (i + 1) := by
      simp [POLL_INTERVAL]; ring
    rw [harith]
    exact ih (i + 1) (fun j hj => h j (by omega))

/-- When the first poll already reports COMPLETED, the controller returns
the fetched transcript. -/
theorem _get_transcribed_text_completed (status : Nat → JobStatus)
    (fetch : Option String) (h : status 0 = JobStatus.completed) :
    _get_transcribed_text status fetch = fetch := by
  have h1 : pollLoop status POLL_TICKS 0 = some JobStatus.completed := by
    have e : POLL_TICKS = 60 + 1 := rfl
    rw [e, pollLoop_succ, h]
  unfold _get_transcribed_text
  rw [h1]

/-- C6: the transcription job controller returns the transcript when the job
reaches COMPLETED within the 300-second wait budget; it returns `none`
(timeout) when the job is still in-flight at every poll inside the budget,
regardless of what a transcript fetch would return; and when the job reaches
FAILED at some poll inside the budget it returns `none` immediately — the
result is `none` for every environment agreeing with the observed statuses up
to the failing poll, whatever the engine would report later and whatever the
transcript fetch would return. -/
theorem transcription_controller_spec (status : Nat → JobStatus)
    (fetch : Option String) :
    (∀ k : Nat, 5 * k ≤ 300 →
      (∀ i, i < k → status (5 * i) = JobStatus.inProgress) →
      status (5 * k) = JobStatus.completed →
      _get_transcribed_text status fetch = fetch) ∧
    ((∀ i : Nat, 5 * i ≤ 300 → status (5 * i) = JobStatus.inProgress) →
      _get_transcribed_text status fetch = none) ∧
    (∀ k : Nat, 5 * k ≤ 300 →
      (∀ i, i < k → status (5 * i) = JobStatus.inProgress) →
      status (5 * k) = JobStatus.failed →
      ∀ (status2 : Nat → JobStatus) (fetch2 : Option String),
        (∀ i, i ≤ k → status2 (5 * i) = status (5 * i)) →
        _get_transcribed_text status2 fetch2 = none) := by
  have hticks : POLL_TICKS = 61 := rfl
  refine ⟨?_, ?_, ?_⟩
  · intro k hk hprog hdone
    have hskip := pollLoop_skip status k POLL_TICKS 0
      (fun i hi => by simpa using hprog i hi) (by omega)
    have h61 : POLL_TICKS - k = (60 - k) + 1 := by omega
    have hpoll : pollLoop status POLL_TICKS 0 = some JobStatus.completed := by
      rw [hskip, h61, pollLoop_succ]
      simp only [Nat.zero_add]
      rw [hdone]
    unfold _get_transcribed_text
    rw [hpoll]
  · intro hall
    have hpoll : pollLoop status POLL_TICKS 0 = none := by
      have := pollLoop_timeout status POLL_TICKS 0
        (fun j hj => hall j (by omega))
      simpa using this
    unfold _get_transcribed_text
    rw [hpoll]
  · intro k hk hprog hfail status2 fetch2 hagree
    have hskip := pollLoop_skip status2 k POLL_TICKS 0
      (fun i hi => by
        have := hprog i hi
        have h2 := hagree i (Nat.le_of_lt hi)
        simpa [h2] using this) (by omega)
    have h61 : POLL_TICKS - k = (60 - k) + 1 := by omega
    have hpoll : pollLoop status2 POLL_TICKS 0 = some JobStatus.failed := by
      rw [hskip, h61, pollLoop_succ]
      simp only [Nat.zero_add]
      rw [hagree k (Nat.le_refl k), hfail]
    unfold _get_transcribed_text
    rw [hpoll]

/-- Witness for `transcription_controller_spec` at concrete status streams. -/
theorem transcription_controller_spec_witness :
    _get_transcribed_text (fun _ => JobStatus.completed) (some "hi") = some "hi" ∧
    _get_transcribed_text (fun _ => JobStatus.inProgress) (some "hi") = none := by
  constructor
  · exact (transcription_controller_spec (fun _ => JobStatus.completed)
      (some "hi")).1 0 (by omega) (fun i hi => absurd hi (by omega)) rfl
  · exact (transcription_controller_spec (fun _ => JobStatus.inProgress)
      (some "hi")).2.1 (fun i _ => rfl)

/-! Base64 roundtrip. -/

/-- Decoding an encoded sextet recovers it (finite check over the alphabet). -/
theorem charSextet_sextetChar : ∀ v : Nat, v < 64 →
    charSextet (sextetChar v) = some v := by decide

/-- The encoder never emits the padding character. -/
theorem sextetChar_ne_pad (v : Nat) : ¬ sextetChar v = '=' := by
  by_cases h : v < 64
  · exact (by decide : ∀ w : Nat, w < 64 → ¬ sextetChar w = '=') v h
  · have hlen : base64Chars.length ≤ v := by
      have h64 : base64Chars.length = 64 := by decide
      omega
    unfold sextetChar
    rw [List.getD_eq_default _ _ hlen]
    decide

/-- Decoding inverts encoding on byte lists. -/
theorem base64DecodeChars_encodeBytes : ∀ (bs : List Nat), (∀ b ∈ bs, b < 256) →
    base64DecodeChars (base64EncodeBytes bs) = some bs
  | [], _ => rfl
  | [b1], h => by
    have hb1 : b1 < 256 := h b1 (by simp)
    simp only [base64EncodeBytes, base64DecodeChars]
    rw [if_pos (by simp),
      charSextet_sextetChar _ (by omega), charSextet_sextetChar _ (by omega)]
    simp only [Option.some.injEq, List.cons.injEq, and_true]
    omega
  | [b1, b2], h => by
    have hb1 : b1 < 256 := h b1 (by simp)
    have hb2 : b2 < 256 := h b2 (by simp)
    simp only [base64EncodeBytes, base64DecodeChars]
    rw [if_neg (fun hc => sextetChar_ne_pad _ hc.1), if_pos (by simp),
      charSextet_sextetChar _ (by omega), charSextet_sextetChar _ (by omega),
      charSextet_sextetChar _ (by omega)]
    simp only [Option.some.injEq, List.cons.injEq, and_true]
    constructor
    · omega
    · omega
  | b1 :: b2 :: b3 :: rest, h => by
    have hb1 : b1 < 256 := h b1 (by simp)
    have hb2 : b2 < 256 := h b2 (by simp)
    have hb3 : b3 < 256 := h b3 (by simp)
    have hrest : ∀ b ∈ rest, b < 256 := fun b hb => h b (by simp [hb])
    have ih := base64DecodeChars_encodeBytes rest hrest
    simp only [base64EncodeBytes, base64DecodeChars]
    rw [if_neg (fun hc => sextetChar_ne_pad _ hc.1),
      if_neg (fun hc => sextetChar_ne_pad _ hc.1),
      charSextet_sextetChar _ (by omega), charSextet_sextetChar _ (by omega),
      charSextet_sextetChar _ (by omega), charSextet_sextetChar _ (by omega), ih]
    simp only [Option.some.injEq, List.cons.injEq, and_true]
    refine ⟨by omega, by omega, by omega⟩

/-- A base64-encoded byte list decodes back to itself. -/
theorem base64_roundtrip (bs : List Nat) (h : ∀ b ∈ bs, b < 256) :
    base64Decode (base64Encode bs) = some bs :=
  base64DecodeChars_encodeBytes bs h

/-! Lookup in the voice table. -/

/-- In an association list with distinct keys, membership determines the
lookup result. -/
theorem lookup_of_mem_nodup :
    ∀ (l : List (String × String)), (l.map Prod.fst).Nodup →
      ∀ a b, (a, b) ∈ l → l.lookup a = some b
  | [], _, a, b, hmem => absurd hmem (List.not_mem_nil _)
  | (k, v) :: xs, hnd, a, b, hmem => by
    have hnd2 : (k :: xs.map Prod.fst).Nodup := by simpa using hnd
    have hnd' : k ∉ xs.map Prod.fst ∧ (xs.map Prod.fst).Nodup :=
      List.nodup_cons.mp hnd2
    rw [List.mem_cons] at hmem
    rcases hmem with heq | hmem
    · have h1 : a = k := congrArg Prod.fst heq
      have h2 : b = v := congrArg Prod.snd heq
      subst h1; subst h2
      simp [List.lookup]
    · have ha : a ∈ xs.map Prod.fst := List.mem_map.mpr ⟨(a, b), hmem, rfl⟩
      have hne : (a == k) = false := by
        rw [beq_eq_false_iff_ne]
        intro hak
        exact hnd'.1 (hak ▸ ha)
      simp only [List.lookup, hne]
      exact lookup_of_mem_nodup xs hnd'.2 a b hmem

/-- Keys of the voice table are pairwise distinct. -/
theorem pollyKeys_nodup : (SUPPORTED_POLLY_LANGS.map Prod.fst).Nodup := by decide

/-! Voice-matcher tier structure (C4) and its table invariant (C10). -/

/-- C4: `find_best_voice_match` evaluates EXACT, then PREFIX, then
CONTAINMENT, first matching tier wins, and returns the voice together with
the full table key of the matched entry; a code matching only by containment
is used only when both the exact and the prefix tier fail, and a code
matching no tier yields no match. -/
theorem find_best_voice_match_tiered (c : String) :
    (exactTier c → ∃ v, find_best_voice_match c = some (v, c) ∧
      (c, v) ∈ SUPPORTED_POLLY_LANGS) ∧
    (¬ exactTier c → prefixTier c → ∃ v l, find_best_voice_match c = some (v, l) ∧
      (l, v) ∈ SUPPORTED_POLLY_LANGS ∧ strStartsWith l (c ++ "-") = true) ∧
    (¬ exactTier c → ¬ prefixTier c → containTier c →
      ∃ v l, find_best_voice_match c = some (v, l) ∧
        (l, v) ∈ SUPPORTED_POLLY_LANGS ∧ strContains l c = true) ∧
    (¬ exactTier c → ¬ prefixTier c → ¬ containTier c →
      find_best_voice_match c = none) := by
  refine ⟨?_, ?_, ?_, ?_⟩
  · rintro ⟨p, hp, hpc⟩
    rcases hE : SUPPORTED_POLLY_LANGS.find? (fun q => q.1 == c) with _ | q
    · exact absurd (by simp [hpc]) (List.find?_eq_none.mp hE p hp)
    · obtain ⟨q1, q2⟩ := q
      have hqc : q1 = c := by simpa using List.find?_some hE
      refine ⟨q2, ?_, ?_⟩
      · unfold find_best_voice_match
        rw [hE]
      · rw [← hqc]
        exact List.mem_of_find?_eq_some hE
  · intro hnE hP
    have hEn : SUPPORTED_POLLY_LANGS.find? (fun q => q.1 == c) = none := by
      rcases hE : SUPPORTED_POLLY_LANGS.find? (fun q => q.1 == c) with _ | q
      · exact hE
      · exact absurd ⟨q, List.mem_of_find?_eq_some hE,
          by simpa using List.find?_some hE⟩ hnE
    obtain ⟨p, hp, hps⟩ := hP
    rcases hF : SUPPORTED_POLLY_LANGS.find?
        (fun q => strStartsWith q.1 (c ++ "-")) with _ | q
    · exact absurd hps (List.find?_eq_none.mp hF p hp)
    · obtain ⟨q1, q2⟩ := q
      refine ⟨q2, q1, ?_, List.mem_of_find?_eq_some hF, by simpa using List.find?_some hF⟩
      unfold find_best_voice_match
      rw [hEn, hF]
  · intro hnE hnP hC
    have hEn : SUPPORTED_POLLY_LANGS.find? (fun q => q.1 == c) = none := by
      rcases hE : SUPPORTED_POLLY_LANGS.find? (fun q => q.1 == c) with _ | q
      · exact hE
      · exact absurd ⟨q, List.mem_of_find?_eq_some hE,
          by simpa using List.find?_some hE⟩ hnE
    have hPn : SUPPORTED_POLLY_LANGS.find?
        (fun q => strStartsWith q.1 (c ++ "-")) = none := by
      rcases hF : SUPPORTED_POLLY_LANGS.find?
          (fun q => strStartsWith q.1 (c ++ "-")) with _ | q
      · exact hF
      · exact absurd ⟨q, List.mem_of_find?_eq_some hF, by simpa using List.find?_some hF⟩ hnP
    obtain ⟨p, hp, hps⟩ := hC
    rcases hG : SUPPORTED_POLLY_LANGS.find?
        (fun q => strContains q.1 c) with _ | q
    · exact absurd hps (List.find?_eq_none.mp hG p hp)
    · obtain ⟨q1, q2⟩ := q
      refine ⟨q2, q1, ?_, List.mem_of_find?_eq_some hG, by simpa using List.find?_some hG⟩
      unfold find_best_voice_match
      rw [hEn, hPn, hG]
  · intro hnE hnP hnC
    have hEn : SUPPORTED_POLLY_LANGS.find? (fun q => q.1 == c) = none := by
      rcases hE : SUPPORTED_POLLY_LANGS.find? (fun q => q.1 == c) with _ | q
      · exact hE
      · exact absurd ⟨q, List.mem_of_find?_eq_some hE,
          by simpa using List.find?_some hE⟩ hnE
    have hPn : SUPPORTED_POLLY_LANGS.find?
        (fun q => strStartsWith q.1 (c ++ "-")) = none := by
      rcases hF : SUPPORTED_POLLY_LANGS.find?
          (fun q => strStartsWith q.1 (c ++ "-")) with _ | q
      · exact hF
      · exact absurd ⟨q, List.mem_of_find?_eq_some hF, by simpa using List.find?_some hF⟩ hnP
    have hCn : SUPPORTED_POLLY_LANGS.find?
        (fun q => strContains q.1 c) = none := by
      rcases hG : SUPPORTED_POLLY_LANGS.find?
          (fun q => strContains q.1 c) with _ | q
      · exact hG
      · exact absurd ⟨q, List.mem_of_find?_eq_some hG, by simpa using List.find?_some hG⟩ hnC
    unfold find_best_voice_match
    rw [hEn, hPn, hCn]

/-- Witness for `find_best_voice_match_tiered`: "hi" is not a table key but
prefix-matches, yielding a full table key. -/
theorem find_best_voice_match_tiered_witness :
    ∃ v l, find_best_voice_match "hi" = some (v, l) ∧
      (l, v) ∈ SUPPORTED_POLLY_LANGS ∧ strStartsWith l ("hi" ++ "-") = true :=
  (find_best_voice_match_tiered "hi").2.1 (by unfold exactTier; decide) (by unfold prefixTier; decide)

/-- C10: whenever the voice matcher returns a pair (voice, language), that
pair is an entry of the supported voice table: the language is a table key
and the voice is the value of the table at that key. -/
theorem voice_match_in_table (c v l : String)
    (h : find_best_voice_match c = some (v, l)) :
    (l, v) ∈ SUPPORTED_POLLY_LANGS ∧
    SUPPORTED_POLLY_LANGS.lookup l = some v := by
  unfold find_best_voice_match at h
  rcases hE : SUPPORTED_POLLY_LANGS.find? (fun q => q.1 == c) with _ | q
  · rw [hE] at h
    rcases hF : SUPPORTED_POLLY_LANGS.find?
        (fun q => strStartsWith q.1 (c ++ "-")) with _ | q
    · rw [hF] at h
      rcases hG : SUPPORTED_POLLY_LANGS.find?
          (fun q => strContains q.1 c) with _ | q
      · rw [hG] at h
        exact absurd h (by simp)
      · rw [hG] at h
        obtain ⟨q1, q2⟩ := q
        obtain ⟨hv, hl⟩ : q2 = v ∧ q1 = l := by simpa using h
        subst hv; subst hl
        have hmem := List.mem_of_find?_eq_some hG
        exact ⟨hmem, lookup_of_mem_nodup _ pollyKeys_nodup _ _ hmem⟩
    · rw [hF] at h
      obtain ⟨q1, q2⟩ := q
      obtain ⟨hv, hl⟩ : q2 = v ∧ q1 = l := by simpa using h
      subst hv; subst hl
      have hmem := List.mem_of_find?_eq_some hF
      exact ⟨hmem, lookup_of_mem_nodup _ pollyKeys_nodup _ _ hmem⟩
  · rw [hE] at h
    obtain ⟨q1, q2⟩ := q
    have hqc : q1 = c := by simpa using List.find?_some hE
    obtain ⟨hv, hl⟩ : q2 = v ∧ c = l := by simpa using h
    subst hv; subst hl
    have hmem := List.mem_of_find?_eq_some hE
    rw [hqc] at hmem
    exact ⟨hmem, lookup_of_mem_nodup _ pollyKeys_nodup _ _ hmem⟩

/-- Witness for `voice_match_in_table` at the prefix match "hi". -/
theorem voice_match_in_table_witness :
    ("hi-IN", "Kajal") ∈ SUPPORTED_POLLY_LANGS ∧
    SUPPORTED_POLLY_LANGS.lookup "hi-IN" = some "Kajal" :=
  voice_match_in_table "hi" "Kajal" "hi-IN" (by decide)

/-! The format sniffer (C5). -/

/-- C5: on buffers of at least the upstream minimum size (100 bytes), each
magic-byte signature forces the corresponding format regardless of the
declared content-type; with no signature present, the lowercased content-type
is checked for "webm", then "wav", then "ogg", then "mp3", returning the
first that occurs as a substring; with none of those, the sniffer returns
webm. -/
theorem detect_audio_format_spec (bs : List Nat) (ct : String)
    (hlen : 100 ≤ bs.length) :
    (bs.take 4 = [82, 73, 70, 70] ∧ (bs.drop 8).take 4 = [87, 65, 86, 69] →
      _detect_audio_format bs ct = (".wav", "wav")) ∧
    (bs.take 4 = [79, 103, 103, 83] → _detect_audio_format bs ct = (".ogg", "ogg")) ∧
    (bs.take 3 = [73, 68, 51] → _detect_audio_format bs ct = (".mp3", "mp3")) ∧
    (bs.take 2 = [255, 251] → _detect_audio_format bs ct = (".mp3", "mp3")) ∧
    (noMagic bs → strContains (lowerStr ct) "webm" = true →
      _detect_audio_format bs ct = (".webm", "webm")) ∧
    (noMagic bs → strContains (lowerStr ct) "webm" = false →
      strContains (lowerStr ct) "wav" = true →
      _detect_audio_format bs ct = (".wav", "wav")) ∧
    (noMagic bs → strContains (lowerStr ct) "webm" = false →
      strContains (lowerStr ct) "wav" = false →
      strContains (lowerStr ct) "ogg" = true →
      _detect_audio_format bs ct = (".ogg", "ogg")) ∧
    (noMagic bs → strContains (lowerStr ct) "webm" = false →
      strContains (lowerStr ct) "wav" = false →
      strContains (lowerStr ct) "ogg" = false →
      strContains (lowerStr ct) "mp3" = true →
      _detect_audio_format bs ct = (".mp3", "mp3")) ∧
    (noMagic bs → strContains (lowerStr ct) "webm" = false →
      strContains (lowerStr ct) "wav" = false →
      strContains (lowerStr ct) "ogg" = false →
      strContains (lowerStr ct) "mp3" = false →
      _detect_audio_format bs ct = (".webm", "webm")) := by
  have h12 : 12 ≤ bs.length := by omega
  have h34 : bs.take 3 = (bs.take 4).take 3 := by
    rw [List.take_take]
    norm_num
  have h24 : bs.take 2 = (bs.take 4).take 2 := by
    rw [List.take_take]
    norm_num
  refine ⟨?_, ?_, ?_, ?_, ?_, ?_, ?_, ?_, ?_⟩
  · rintro ⟨hr, hw⟩
    unfold _detect_audio_format
    rw [if_pos ⟨h12, hr, hw⟩]
  · intro hogg
    have hnr : ¬ (12 ≤ bs.length ∧ bs.take 4 = [82, 73, 70, 70] ∧
        (bs.drop 8).take 4 = [87, 65, 86, 69]) := by
      rintro ⟨_, hr, _⟩
      rw [hogg] at hr
      exact absurd hr (by decide)
    unfold _detect_audio_format
    rw [if_neg hnr, if_pos ⟨h12, hogg⟩]
  · intro hid3
    have hnr : ¬ (12 ≤ bs.length ∧ bs.take 4 = [82, 73, 70, 70] ∧
        (bs.drop 8).take 4 = [87, 65, 86, 69]) := by
      rintro ⟨_, hr, _⟩
      rw [h34, hr] at hid3
      exact absurd hid3 (by decide)
    have hno : ¬ (12 ≤ bs.length ∧ bs.take 4 = [79, 103, 103, 83]) := by
      rintro ⟨_, ho⟩
      rw [h34, ho] at hid3
      exact absurd hid3 (by decide)
    unfold _detect_audio_format
    rw [if_neg hnr, if_neg hno, if_pos ⟨h12, Or.inl hid3⟩]
  · intro hsync
    have hnr : ¬ (12 ≤ bs.length ∧ bs.take 4 = [82, 73, 70, 70] ∧
        (bs.drop 8).take 4 = [87, 65, 86, 69]) := by
      rintro ⟨_, hr, _⟩
      rw [h24, hr] at hsync
      exact absurd hsync (by decide)
    have hno : ¬ (12 ≤ bs.length ∧ bs.take 4 = [79, 103, 103, 83]) := by
      rintro ⟨_, ho⟩
      rw [h24, ho] at hsync
      exact absurd hsync (by decide)
    unfold _detect_audio_format
    rw [if_neg hnr, if_neg hno, if_pos ⟨h12, Or.inr hsync⟩]
  · rintro ⟨hm1, hm2, hm3, hm4⟩ hwebm
    have hct : ct ≠ "" := by
      intro hc
      rw [hc] at hwebm
      exact absurd hwebm (by decide)
    unfold _detect_audio_format
    rw [if_neg (fun hc => hm1 hc.2), if_neg (fun hc => hm2 hc.2),
      if_neg (fun hc => hc.2.elim hm3 hm4), if_pos ⟨hct, hwebm⟩]
  · rintro ⟨hm1, hm2, hm3, hm4⟩ hwebm hwav
    have hct : ct ≠ "" := by
      intro hc
      rw [hc] at hwav
      exact absurd hwav (by decide)
    unfold _detect_audio_format
    rw [if_neg (fun hc => hm1 hc.2), if_neg (fun hc => hm2 hc.2),
      if_neg (fun hc => hc.2.elim hm3 hm4),
      if_neg (fun hc => absurd hc.2 (by simp [hwebm])),
      if_pos ⟨hct, hwav⟩]
  · rintro ⟨hm1, hm2, hm3, hm4⟩ hwebm hwav hogg
    have hct : ct ≠ "" := by
      intro hc
      rw [hc] at hogg
      exact absurd hogg (by decide)
    unfold _detect_audio_format
    rw [if_neg (fun hc => hm1 hc.2), if_neg (fun hc => hm2 hc.2),
      if_neg (fun hc => hc.2.elim hm3 hm4),
      if_neg (fun hc => absurd hc.2 (by simp [hwebm])),
      if_neg (fun hc => absurd hc.2 (by simp [hwav])),
      if_pos ⟨hct, hogg⟩]
  · rintro ⟨hm1, hm2, hm3, hm4⟩ hwebm hwav hogg hmp3
    have hct : ct ≠ "" := by
      intro hc
      rw [hc] at hmp3
      exact absurd hmp3 (by decide)
    unfold _detect_audio_format
    rw [if_neg (fun hc => hm1 hc.2), if_neg (fun hc => hm2 hc.2),
      if_neg (fun hc => hc.2.elim hm3 hm4),
      if_neg (fun hc => absurd hc.2 (by simp [hwebm])),
      if_neg (fun hc => absurd hc.2 (by simp [hwav])),
      if_neg (fun hc => absurd hc.2 (by simp [hogg])),
      if_pos ⟨hct, hmp3⟩]
  · rintro ⟨hm1, hm2, hm3, hm4⟩ hwebm hwav hogg hmp3
    unfold _detect_audio_format
    rw [if_neg (fun hc => hm1 hc.2), if_neg (fun hc => hm2 hc.2),
      if_neg (fun hc => hc.2.elim hm3 hm4),
      if_neg (fun hc => absurd hc.2 (by simp [hwebm])),
      if_neg (fun hc => absurd hc.2 (by simp [hwav])),
      if_neg (fun hc => absurd hc.2 (by simp [hogg])),
      if_neg (fun hc => absurd hc.2 (by simp [hmp3])),
      if_neg (fun hc => absurd hc.2 (by simp [hwebm]))]

/-- Witness for `detect_audio_format_spec`: RIFF/WAVE bytes are classified as
wav even under a webm content-type. -/
theorem detect_audio_format_spec_witness :
    _detect_audio_format (utf8Bytes wavBody) "audio/webm" = (".wav", "wav") :=
  (detect_audio_format_spec (utf8Bytes wavBody) "audio/webm" (by decide)).1
    (by decide)

/-! Handler evaluation on the success path. -/

/-- RIFF/WAVE magic bytes force the wav classification (helper shared by the
end-to-end lemmas). -/
theorem detect_wav_helper (bs : List Nat) (ct : String) (h12 : 12 ≤ bs.length)
    (hr : bs.take 4 = [82, 73, 70, 70])
    (hw : (bs.drop 8).take 4 = [87, 65, 86, 69]) :
    _detect_audio_format bs ct = (".wav", "wav") := by
  unfold _detect_audio_format
  rw [if_pos ⟨h12, hr, hw⟩]

/-- Full evaluation of the handler on a raw (non-multipart, non-base64)
request whose upstream calls all succeed through synthesis. -/
theorem handler_success_eval (env : Env) (event : Event)
    (body transcript : String) (audio : List Nat)
    (hk : env.cohereApiKey.isNone = false)
    (hb : env.transcribeBucket.isNone = false)
    (hbody : event.body = some body) (hne : ¬ body = "")
    (hmp : strContains (getContentType event.headers) "multipart/form-data" = false)
    (h64 : event.isBase64Encoded = false)
    (hlen : ¬ (utf8Bytes body = [] ∨ (utf8Bytes body).length < 100))
    (hup : env.uploadOk = true) (hst : env.startJobOk = true)
    (hjob : env.jobStatus 0 = JobStatus.completed)
    (hf : env.fetchTranscript = some transcript)
    (hbl : isBlank transcript = false)
    (hsy : env.synthesizeSpeech = fun _ _ _ => some audio) :
    handler env event =
      (successResponse (pipelineVoice env transcript).2.1 (base64Encode audio),
       [Effect.createTempFile, Effect.s3Upload,
        Effect.startTranscriptionJob
          (_detect_audio_format (utf8Bytes body) (getContentType event.headers)).2,
        Effect.pollJob,
        Effect.synthesize (pipelineVoice env transcript).2.2
          (pipelineVoice env transcript).1,
        Effect.deleteTempFile]) := by
  have hget : _get_transcribed_text env.jobStatus env.fetchTranscript
      = some transcript := by
    rw [_get_transcribed_text_completed env.jobStatus env.fetchTranscript hjob, hf]
  have hdec : decodeAudioBytes env event body (getContentType event.headers)
      = Except.ok (some (utf8Bytes body)) := by
    unfold decodeAudioBytes
    simp [hmp, h64]
  unfold handler handlerInner
  rw [hbody]
  simp only [hk, hb, Bool.false_eq_true, if_false, if_neg hne, hdec]
  unfold afterDecode
  rw [if_neg hlen]
  simp only [uploadAndTranscribe, hup, hst, if_true, hget, hbl,
    Bool.false_eq_true, if_false]
  unfold finishPhase
  simp only [hsy]
  simp

/-! Voice-phase evaluation helpers. -/

/-- With a successfully detected language the pipeline voice phase is the
voice phase at that code. -/
theorem pipelineVoice_lang (env : Env) (t lc : String)
    (hlang : env.detectLanguage = some lc) :
    pipelineVoice env t = voicePhase env.translateText
      (cohereGenerateReply env.generateReply
        (classifierPhase (some lc) env.translateText env.detectSentiment t).2.1
        (classifierPhase (some lc) env.translateText env.detectSentiment t).2.2)
      lc := by
  unfold pipelineVoice
  rw [hlang]
  rfl

/-- Detected language "en" resolves to the prefix match ("Olivia", "en-AU"). -/
theorem pipelineVoice_en (env : Env) (t : String)
    (hlang : env.detectLanguage = some "en") :
    (pipelineVoice env t).1 = "Olivia" ∧ (pipelineVoice env t).2.1 = "en-AU" := by
  rw [pipelineVoice_lang env t "en" hlang]
  unfold voicePhase
  rw [show find_best_voice_match "en" = some ("Olivia", "en-AU") from by decide]
  exact ⟨rfl, rfl⟩

/-- A language with no voice match at any tier resolves to Joanna / "en". -/
theorem pipelineVoice_none (env : Env) (t lc : String)
    (hlang : env.detectLanguage = some lc)
    (hnone : find_best_voice_match lc = none) :
    (pipelineVoice env t).1 = "Joanna" ∧ (pipelineVoice env t).2.1 = "en" := by
  rw [pipelineVoice_lang env t lc hlang]
  unfold voicePhase
  rw [hnone]
  exact ⟨rfl, rfl⟩

/-- The x-language header of the success response is the resolved tag. -/
theorem getRespHeader_success_xlang (sl b : String) :
    getRespHeader (successResponse sl b) "x-language" = some sl := rfl

/-! C2: the English RIFF/WAVE end-to-end scenario. -/

/-- C2 counterexample: on a raw 100-byte RIFF/WAVE request with every
external stage succeeding and detected language "en", the handler does
return 200, but its x-language header is "en-AU" — the prefix-matched voice
table key — and not "en" as the claim states. -/
theorem english_wav_xlanguage_counterexample :
    ((utf8Bytes wavBody).take 4 = [82, 73, 70, 70] ∧
      ((utf8Bytes wavBody).drop 8).take 4 = [87, 65, 86, 69]) ∧
    envBase.detectLanguage = some "en" ∧
    (handler envBase eventWav).1.statusCode = 200 ∧
    getRespHeader (handler envBase eventWav).1 "x-language" = some "en-AU" ∧
    ¬ getRespHeader (handler envBase eventWav).1 "x-language" = some "en" := by
  decide

/-- C2 (amended): for every raw request whose audio bytes carry the
RIFF/WAVE signature and whose transcript is detected as "en", if all
external stages succeed the handler returns 200 with Content-Type
audio/mpeg, x-language equal to the prefix-matched table key "en-AU", a
base64-decodable body carrying the synthesized audio, and the transcription
job was submitted with the sniffed "wav" media format. -/
theorem english_wav_success_response (env : Env) (event : Event)
    (body transcript : String) (audio : List Nat)
    (hk : env.cohereApiKey.isNone = false)
    (hb : env.transcribeBucket.isNone = false)
    (hbody : event.body = some body) (hne : ¬ body = "")
    (hmp : strContains (getContentType event.headers) "multipart/form-data" = false)
    (h64 : event.isBase64Encoded = false)
    (hlen : ¬ (utf8Bytes body = [] ∨ (utf8Bytes body).length < 100))
    (hup : env.uploadOk = true) (hst : env.startJobOk = true)
    (hjob : env.jobStatus 0 = JobStatus.completed)
    (hf : env.fetchTranscript = some transcript)
    (hbl : isBlank transcript = false)
    (hsy : env.synthesizeSpeech = fun _ _ _ => some audio)
    (hlang : env.detectLanguage = some "en")
    (hriff : (utf8Bytes body).take 4 = [82, 73, 70, 70])
    (hwave : ((utf8Bytes body).drop 8).take 4 = [87, 65, 86, 69])
    (hbytes : ∀ x ∈ audio, x < 256) :
    (handler env event).1.statusCode = 200 ∧
    getRespHeader (handler env event).1 "Content-Type" = some "audio/mpeg" ∧
    getRespHeader (handler env event).1 "x-language" = some "en-AU" ∧
    (handler env event).1.isBase64Encoded = true ∧
    base64Decode ((handler env event).1.body) = some audio ∧
    Effect.startTranscriptionJob "wav" ∈ (handler env event).2 := by
  have heval := handler_success_eval env event body transcript audio
    hk hb hbody hne hmp h64 hlen hup hst hjob hf hbl hsy
  have hvp := pipelineVoice_en env transcript hlang
  have h12 : 12 ≤ (utf8Bytes body).length := by
    push_neg at hlen
    omega
  have hdet : _detect_audio_format (utf8Bytes body) (getContentType event.headers)
      = (".wav", "wav") := detect_wav_helper _ _ h12 hriff hwave
  rw [heval]
  refine ⟨rfl, rfl, ?_, rfl, ?_, ?_⟩
  · rw [hvp.2]
    exact getRespHeader_success_xlang "en-AU" (base64Encode audio)
  · exact base64_roundtrip audio hbytes
  · rw [hdet]
    simp

/-- Witness for `english_wav_success_response` on the concrete wav request. -/
theorem english_wav_success_response_witness :
    (handler envBase eventWav).1.statusCode = 200 ∧
    getRespHeader (handler envBase eventWav).1 "Content-Type" = some "audio/mpeg" ∧
    getRespHeader (handler envBase eventWav).1 "x-language" = some "en-AU" ∧
    (handler envBase eventWav).1.isBase64Encoded = true ∧
    base64Decode ((handler envBase eventWav).1.body) = some [1, 2, 3, 250] ∧
    Effect.startTranscriptionJob "wav" ∈ (handler envBase eventWav).2 :=
  english_wav_success_response envBase eventWav wavBody "Hello there"
    [1, 2, 3, 250] rfl rfl rfl (by decide) (by decide) rfl (by decide) rfl rfl
    rfl rfl (by decide) rfl rfl (by decide) (by decide) (by decide)

/-! C3: the NONE-tier fallback. -/

/-- C3: when the voice matcher yields no voice at any tier for the detected
language, the handler synthesizes with the fixed default voice "Joanna" and
reports "en" as the spoken-language tag in the response metadata. -/
theorem voice_fallback_joanna_en (env : Env) (event : Event)
    (body transcript : String) (audio : List Nat) (lc : String)
    (hk : env.cohereApiKey.isNone = false)
    (hb : env.transcribeBucket.isNone = false)
    (hbody : event.body = some body) (hne : ¬ body = "")
    (hmp : strContains (getContentType event.headers) "multipart/form-data" = false)
    (h64 : event.isBase64Encoded = false)
    (hlen : ¬ (utf8Bytes body = [] ∨ (utf8Bytes body).length < 100))
    (hup : env.uploadOk = true) (hst : env.startJobOk = true)
    (hjob : env.jobStatus 0 = JobStatus.completed)
    (hf : env.fetchTranscript = some transcript)
    (hbl : isBlank transcript = false)
    (hsy : env.synthesizeSpeech = fun _ _ _ => some audio)
    (hlang : env.detectLanguage = some lc)
    (hnone : find_best_voice_match lc = none) :
    getRespHeader (handler env event).1 "x-language" = some "en" ∧
    ∃ t, Effect.synthesize t "Joanna" ∈ (handler env event).2 := by
  have heval := handler_success_eval env event body transcript audio
    hk hb hbody hne hmp h64 hlen hup hst hjob hf hbl hsy
  have hvp := pipelineVoice_none env transcript lc hlang hnone
  rw [heval]
  constructor
  · rw [hvp.2]
    exact getRespHeader_success_xlang "en" (base64Encode audio)
  · refine ⟨(pipelineVoice env transcript).2.2, ?_⟩
    rw [hvp.1]
    simp

/-- Witness for `voice_fallback_joanna_en` at detected language "xx". -/
theorem voice_fallback_joanna_en_witness :
    getRespHeader (handler envNoVoice eventWav).1 "x-language" = some "en" ∧
    ∃ t, Effect.synthesize t "Joanna" ∈ (handler envNoVoice eventWav).2 :=
  voice_fallback_joanna_en envNoVoice eventWav wavBody "Hello there"
    [1, 2, 3, 250] "xx" rfl rfl rfl (by decide) (by decide) rfl (by decide)
    rfl rfl rfl rfl (by decide) rfl rfl (by decide)

/-! C7: degradable classifiers. -/

/-- C7: a failing degradable classifier never aborts the pipeline and each
failure is replaced by its fixed safe default: language-detection failure
yields "en", forward-translation failure passes the transcript through
unchanged, sentiment failure yields "NEUTRAL"; and a request on which all
three fail still returns 200 when the fatal stages succeed. -/
theorem degradable_classifier_defaults :
    (∀ (t : String → String → String → Option String) (s : Option String)
      (tr : String), (classifierPhase none t s tr).1 = "en") ∧
    (∀ (d : Option String) (s : Option String) (tr : String),
      (classifierPhase d (fun _ _ _ => none) s tr).2.1 = tr) ∧
    (∀ (d : Option String) (t : String → String → String → Option String)
      (tr : String), (classifierPhase d t none tr).2.2 = "NEUTRAL") ∧
    (∀ (env : Env) (event : Event) (body transcript : String)
      (audio : List Nat),
      env.detectLanguage = none →
      env.translateText = (fun _ _ _ => none) →
      env.detectSentiment = none →
      env.cohereApiKey.isNone = false →
      env.transcribeBucket.isNone = false →
      event.body = some body → ¬ body = "" →
      strContains (getContentType event.headers) "multipart/form-data" = false →
      event.isBase64Encoded = false →
      ¬ (utf8Bytes body = [] ∨ (utf8Bytes body).length < 100) →
      env.uploadOk = true → env.startJobOk = true →
      env.jobStatus 0 = JobStatus.completed →
      env.fetchTranscript = some transcript → isBlank transcript = false →
      env.synthesizeSpeech = (fun _ _ _ => some audio) →
      (handler env event).1.statusCode = 200) := by
  refine ⟨?_, ?_, ?_, ?_⟩
  · intro t s tr
    rfl
  · intro d s tr
    simp [classifierPhase]
  · intro d t tr
    rfl
  · intro env event body transcript audio hd ht hs hk hb hbody hne hmp h64
      hlen hup hst hjob hf hbl hsy
    have heval := handler_success_eval env event body transcript audio
      hk hb hbody hne hmp h64 hlen hup hst hjob hf hbl hsy
    rw [heval]
    rfl

/-- Witness for `degradable_classifier_defaults` with all three classifiers
down on the concrete wav request. -/
theorem degradable_classifier_defaults_witness :
    (handler envClassifiersDown eventWav).1.statusCode = 200 :=
  degradable_classifier_defaults.2.2.2 envClassifiersDown eventWav wavBody
    "Hello there" [1, 2, 3, 250] rfl rfl rfl rfl rfl rfl (by decide)
    (by decide) rfl (by decide) rfl rfl rfl rfl (by decide) rfl

/-! C8: undersized audio is rejected before any upstream side effect. -/

/-- C8: when the decoded audio buffer is empty or below the 100-byte
minimum, the handler returns the 400 "invalid or too small" response, and
neither the S3 upload nor a transcription-job submission ever occurs. -/
theorem undersized_audio_no_upload (env : Env) (event : Event)
    (body : String) (bs : List Nat)
    (hk : env.cohereApiKey.isNone = false)
    (hb : env.transcribeBucket.isNone = false)
    (hbody : event.body = some body) (hne : ¬ body = "")
    (hdec : decodeAudioBytes env event body (getContentType event.headers)
      = Except.ok (some bs))
    (hlen : bs.length < 100) :
    (handler env event).1
      = _response 400 "Audio data appears to be invalid or too small" ∧
    Effect.s3Upload ∉ (handler env event).2 ∧
    ∀ m, Effect.startTranscriptionJob m ∉ (handler env event).2 := by
  have hh : handler env event =
      (_response 400 "Audio data appears to be invalid or too small", []) := by
    unfold handler handlerInner
    rw [hbody]
    simp only [hk, hb, Bool.false_eq_true, if_false, if_neg hne, hdec]
    unfold afterDecode
    rw [if_pos (Or.inr hlen)]
    rfl
  rw [hh]
  exact ⟨rfl, by simp, fun m => by simp⟩

/-- Witness for `undersized_audio_no_upload` on a 4-byte body. -/
theorem undersized_audio_no_upload_witness :
    (handler envBase shortEvent).1
      = _response 400 "Audio data appears to be invalid or too small" ∧
    Effect.s3Upload ∉ (handler envBase shortEvent).2 ∧
    ∀ m, Effect.startTranscriptionJob m ∉ (handler envBase shortEvent).2 :=
  undersized_audio_no_upload envBase shortEvent "tiny" (utf8Bytes "tiny")
    rfl rfl rfl (by decide) rfl (by decide)

/-! C9: the temporary audio file is always cleaned up. -/

/-- On a buffer that passes the size check, `afterDecode` always stages the
temporary file. -/
theorem afterDecode_flag_true (env : Env) (ct : String) (bs : List Nat)
    (h : ¬ (bs = [] ∨ bs.length < 100)) :
    (afterDecode env ct bs).2.1 = true := by
  unfold afterDecode finishPhase
  rw [if_neg h]
  rcases hu : (uploadAndTranscribe env.uploadOk env.startJobOk
      (_detect_audio_format bs ct).2).1 with _ | u
  · simp [hu]
  · simp only [hu]
    rcases hg : _get_transcribed_text env.jobStatus env.fetchTranscript with _ | t
    · simp [hg]
    · simp only [hg]
      by_cases hbl : isBlank t = true
      · simp [hbl]
      · simp only [hbl, if_false, Bool.false_eq_true]
        rcases hs : env.synthesizeSpeech (pipelineVoice env t).2.2
            (pipelineVoice env t).1
            (pollyEngine (pipelineVoice env t).1) with _ | a
        · simp [hs]
        · simp [hs]

/-- When `afterDecode` reports the temp file as not created, it performed no
action at all. -/
theorem afterDecode_flag_false (env : Env) (ct : String) (bs : List Nat)
    (r : Response) (tr : List Effect)
    (hI : afterDecode env ct bs = (r, false, tr)) : tr = [] := by
  by_cases hsmall : (bs = [] ∨ bs.length < 100)
  · have hval : afterDecode env ct bs =
        (_response 400 "Audio data appears to be invalid or too small",
          false, []) := by
      unfold afterDecode
      rw [if_pos hsmall]
    rw [hval] at hI
    have := congrArg (fun x => x.2.2) hI
    simpa using this.symm
  · exfalso
    have h1 := afterDecode_flag_true env ct bs hsmall
    rw [hI] at h1
    simp at h1

/-- When `handlerInner` reports the temp file as not created, it performed
no action at all. -/
theorem handlerInner_flag_false (env : Env) (event : Event) (r : Response)
    (tr : List Effect) (hI : handlerInner env event = (r, false, tr)) :
    tr = [] := by
  unfold handlerInner at hI
  repeat' split at hI
  all_goals try exact afterDecode_flag_false _ _ _ _ _ hI
  all_goals simp only [Prod.mk.injEq] at hI
  all_goals exact hI.2.2.symm

/-- C9: on every request in which the staged temporary audio file is
created, it is also deleted before the handler returns, on every exit
path. -/
theorem temp_file_always_deleted (env : Env) (event : Event)
    (h : Effect.createTempFile ∈ (handler env event).2) :
    Effect.deleteTempFile ∈ (handler env event).2 := by
  rcases hI : handlerInner env event with ⟨r, b, tr⟩
  have hH : handler env event =
      (r, tr ++ if b then [Effect.deleteTempFile] else []) := by
    unfold handler
    rw [hI]
  cases b with
  | true =>
    rw [hH]
    simp
  | false =>
    rw [hH] at h
    have htr : tr = [] := handlerInner_flag_false env event r tr hI
    rw [htr] at h
    simp at h

/-- Witness for `temp_file_always_deleted` on the concrete wav request. -/
theorem temp_file_always_deleted_witness :
    Effect.deleteTempFile ∈ (handler envBase eventWav).2 :=
  temp_file_always_deleted envBase eventWav (by decide)

/-! C1: status code on transcription failure and timeout. -/

/-- C1 (divergence from the spec): when the transcription job ends FAILED at
the first poll, and likewise when it stays in-flight past the 300-second
budget, the handler returns the 400 "No speech detected in audio" client
error — not a 500 — because `_get_transcribed_text` collapses job failure,
timeout and empty transcript into the same `None`. -/
theorem transcription_failure_returns_400 :
    (handler envJobFailed eventWav).1
      = _response 400 "No speech detected in audio" ∧
    (handler envJobStuck eventWav).1
      = _response 400 "No speech detected in audio" ∧
    ¬ (handler envJobFailed eventWav).1.statusCode = 500 ∧
    ¬ (handler envJobStuck eventWav).1.statusCode = 500 := by
  decide
